import Mathlib

/-!
Verification of the aquadoggo materialised-document store and blob reassembly
subsystem (`src/aquadoggo/src/db/stores/document.rs` and
`src/aquadoggo/src/db/stores/blob.rs`) against its specification.

The relational backend is embedded shallowly: each SQL table is a Lean list of
row structures, kept in insertion order, and each SQL statement executed by the
Rust code becomes a Lean function on the database state.  A crucial point of
faithfulness: in `SqlStore::insert_document` and `SqlStore::insert_document_view`
the Rust code opens a transaction with `self.pool.begin()` but then passes
`&self.pool` (not the transaction handle) to the helper functions, so every
sub-insert runs on a pool connection in autocommit mode.  The embedding
therefore applies each statement's effect to the database immediately; the
`commit`/`rollback` of the (statement-free) transaction is a no-op on state.

Rust panics (`unwrap()` on `None`, `panic!()` in unreachable match arms) are
modelled as the distinguished outcome `StoreErr.panicked`, kept distinct from
returned errors such as `StoreErr.fatalStorage`.
-/

namespace Aquadoggo

/-- Field values carried by operations (`p2panda_rs::operation::OperationValue`),
restricted to the variants the store code in `document.rs` / `blob.rs` touches.
Rust strings are modelled as lists of bytes so that Rust `String::len` (a byte
count) is `List.length`. -/
inductive OperationValue where
  | int : Int → OperationValue
  | str : List Nat → OperationValue
  | boolean : Bool → OperationValue
  | relation : String → OperationValue
  | pinnedRelationList : List String → OperationValue
  deriving DecidableEq, Repr

/-- A row of the `documents` table
(`documents(document_id PK, document_view_id, schema_id, is_deleted)`). -/
structure DocumentRowT where
  document_id : String
  document_view_id : String
  schema_id : String
  is_deleted : Bool
  deriving DecidableEq, Repr

/-- A row of the `document_views` table
(`document_views(document_view_id PK, document_id FK, schema_id)`). -/
structure DocumentViewRowT where
  document_view_id : String
  document_id : String
  schema_id : String
  deriving DecidableEq, Repr

/-- A row of the `document_view_fields` table: a join row anchoring a view's
field to the operation row holding the value. -/
structure DocumentViewFieldRowT where
  document_view_id : String
  operation_id : String
  name : String
  deriving DecidableEq, Repr

/-- A row of the external `operations_v1` table, restricted to the columns the
document store reads (`operation_id`, `public_key`). -/
structure OperationRowT where
  operation_id : String
  public_key : String
  deriving DecidableEq, Repr

/-- Modelled from the spec: the external `operation_fields_v1` table combined
with the Row Codec (spec section 4.2).  `db/models/utils.rs`, which joins and
parses these rows (`parse_document_view_field_rows`), is not under `src/`, so
the join-plus-parse is collapsed to a single materialised value per
(operation id, field name) pair, list-typed fields appearing as one
already-ordered list value. -/
structure OperationFieldT where
  operation_id : String
  name : String
  value : OperationValue
  deriving DecidableEq, Repr

/-- The relational state: the three tables owned by the document store plus the
two read-only operation tables. -/
structure Db where
  documents : List DocumentRowT
  document_views : List DocumentViewRowT
  document_view_fields : List DocumentViewFieldRowT
  operations : List OperationRowT
  operation_fields : List OperationFieldT
  deriving DecidableEq, Repr

/-- A document view value (`p2panda_rs::document::DocumentViewValue`): the id of
the operation the value originates from, together with the value. -/
structure DocumentViewValueT where
  operation_id : String
  value : OperationValue
  deriving DecidableEq, Repr

/-- A document view (`p2panda_rs::document::DocumentView`): its id and the
ordered field-name to value mapping. -/
structure DocumentViewT where
  view_id : String
  fields : List (String × DocumentViewValueT)
  deriving DecidableEq, Repr

/-- A materialised document as handed to `insert_document`
(`p2panda_rs::document::Document`): `fields = none` models `view() == None`
(the deleted case). -/
structure DocT where
  id : String
  view_id : String
  schema_id : String
  fields : Option (List (String × DocumentViewValueT))
  is_deleted : Bool
  deriving DecidableEq, Repr

/-- A document as returned by the getters (`crate::db::types::StorageDocument`). -/
structure StorageDocumentT where
  id : String
  view_id : String
  schema_id : String
  fields : Option (List (String × DocumentViewValueT))
  author : String
  deleted : Bool
  deriving DecidableEq, Repr

/-- Error outcomes.  `fatalStorage` is `DocumentStorageError::FatalStorageError`
(also wrapping backend constraint violations); the blob constructors mirror
`BlobStoreError`; `panicked` models a Rust panic (an `unwrap()` of `None` or a
`panic!()` arm), which is an abort rather than a returned error. -/
inductive StoreErr where
  | fatalStorage
  | notBlobDocument
  | noBlobPiecesFound
  | missingPieces
  | incorrectLength
  | panicked
  deriving DecidableEq, Repr

/-- Outcome of a write entry point: the database state after the call (writes
made on pool connections persist even when the call returns an error) and the
error, if any. -/
structure ExecOut where
  db : Db
  err : Option StoreErr
  deriving DecidableEq, Repr

/-- Per-row update applied by the `ON CONFLICT(document_id) DO UPDATE SET
document_view_id = $2, is_deleted = $3` clause of the document upsert: a row
whose `document_id` matches gets the new view id and deleted flag; its
`document_id` and `schema_id` columns are untouched. -/
def updateDocRow (d : DocT) (r : DocumentRowT) : DocumentRowT :=
  if r.document_id == d.id then
    { r with document_view_id := d.view_id, is_deleted := d.is_deleted }
  else r

/-- The `INSERT INTO documents ... ON CONFLICT(document_id) DO UPDATE` statement
of the helper `insert_document` (document.rs lines 471-493). -/
def upsertDocumentRow (db : Db) (d : DocT) : Db :=
  if db.documents.any (fun r => r.document_id == d.id) then
    { db with documents := db.documents.map (updateDocRow d) }
  else
    { db with documents := db.documents ++ [⟨d.id, d.view_id, d.schema_id, d.is_deleted⟩] }

/-- The `INSERT INTO document_views (document_view_id, document_id, schema_id)`
statement of the helper `insert_document_view` (document.rs lines 447-464).
Constraints modelled from the spec (the migrations are not under `src/`):
`document_view_id` is the primary key and `document_id` is a foreign key into
`documents` (spec section 6.1), so the statement fails with a backend error,
surfaced as `FatalStorageError`, on a duplicate view id or unknown document. -/
def insertViewRowQ (db : Db) (vid docId schemaId : String) : Except StoreErr Db :=
  if db.document_views.any (fun r => r.document_view_id == vid) then
    .error .fatalStorage
  else if db.documents.any (fun r => r.document_id == docId) then
    .ok { db with document_views := db.document_views ++ [⟨vid, docId, schemaId⟩] }
  else .error .fatalStorage

/-- One `INSERT INTO document_view_fields (document_view_id, operation_id, name)`
statement of the helper `insert_document_fields` (document.rs lines 419-434).
Constraint modelled from the spec (migrations not under `src/`): `operation_id`
is a foreign key into the operations table (spec sections 3 and 6.2), so the
insert fails with a backend error when the referenced operation is unknown. -/
def insertViewFieldRowQ (db : Db) (vid opId name : String) : Except StoreErr Db :=
  if db.operations.any (fun o => o.operation_id == opId) then
    .ok { db with document_view_fields := db.document_view_fields ++ [⟨vid, opId, name⟩] }
  else .error .fatalStorage

/-- The helper `insert_document_fields` (document.rs lines 413-438): one insert
per view field, each executed on a pool connection.  The Rust code runs the
inserts through `try_join_all`; the embedding determinises this to the field
order of the view, stopping at the first failing insert (one admissible
schedule).  Rows inserted before the failure persist. -/
def insertFieldRows (vid : String) : Db → List (String × DocumentViewValueT) → ExecOut
  | db, [] => ⟨db, none⟩
  | db, nv :: rest =>
    match insertViewFieldRowQ db vid nv.2.operation_id nv.1 with
    | .error e => ⟨db, some e⟩
    | .ok db1 => insertFieldRows vid db1 rest

/-- The helper `insert_document` (document.rs lines 469-508): upsert the
document row, then, when the document is not deleted and carries a view, insert
the view row and its field rows.  All statements execute on the pool. -/
def insert_document_helper (db : Db) (d : DocT) : ExecOut :=
  let db1 := upsertDocumentRow db d
  match d.is_deleted, d.fields with
  | false, some fs =>
    match insertViewRowQ db1 d.view_id d.id d.schema_id with
    | .error e => ⟨db1, some e⟩
    | .ok db2 => insertFieldRows d.view_id db2 fs
  | _, _ => ⟨db1, none⟩

/-- The public `SqlStore::insert_document` (document.rs lines 288-314).  The
Rust code begins a transaction on one pool connection but hands `&self.pool` to
the helper, so every statement of the helper autocommits on other connections;
the final `commit()` / `rollback()` applies to a transaction containing no
statements and has no effect on the tables.  The call's net effect on state is
therefore exactly the helper's partial writes, kept even on error. -/
def SqlStore_insert_document (db : Db) (d : DocT) : ExecOut :=
  insert_document_helper db d

/-- The public `SqlStore::insert_document_view` (document.rs lines 323-367):
insert the view row, then the field rows.  As in `SqlStore_insert_document`,
the transaction is begun but never carries the statements (the helpers receive
`&self.pool`), so writes persist even when the call returns an error. -/
def SqlStore_insert_document_view (db : Db) (v : DocumentViewT) (docId schemaId : String) :
    ExecOut :=
  match insertViewRowQ db v.view_id docId schemaId with
  | .error e => ⟨db, some e⟩
  | .ok db1 => insertFieldRows v.view_id db1 v.fields

/-- Lookup of the materialised value of one (operation id, field name) pair in
the operation fields table (the `LEFT JOIN operation_fields_v1` of
`get_document_view_field_rows`, collapsed as described at `OperationFieldT`). -/
def lookupOpField (ofs : List OperationFieldT) (opId name : String) : Option OperationValue :=
  (ofs.find? (fun f => f.operation_id == opId && f.name == name)).map
    (fun f => f.value)

/-- The `SELECT ... FROM document_view_fields WHERE document_view_id = $1` part
of `get_document_view_field_rows` (document.rs lines 371-410); rows come back
in insertion order. -/
def viewFieldRowsFor (db : Db) (vid : String) : List DocumentViewFieldRowT :=
  db.document_view_fields.filter (fun r => r.document_view_id == vid)

/-- Modelled from the spec: `parse_document_view_field_rows`
(`db/models/utils.rs`, not under `src/`; Row Codec, spec section 4.2).  Each
view-field row is dereferenced through the originating operation's field value;
the source comments state the parser `unwraps where errors might occur`, so a
row whose operation value cannot be found parses to `none` (a panic at the
call sites). -/
def parseViewFieldRows (ofs : List OperationFieldT) : List DocumentViewFieldRowT →
    Option (List (String × DocumentViewValueT))
  | [] => some []
  | r :: rest =>
    match lookupOpField ofs r.operation_id r.name with
    | none => none
    | some v =>
      match parseViewFieldRows ofs rest with
      | none => none
      | some fs => some ((r.name, ⟨r.operation_id, v⟩) :: fs)

/-- The `DocumentStore::get_document` implementation (document.rs lines 59-113).
The single SQL query selects the non-deleted document row and, via
`LEFT JOIN operations_v1 ON operations_v1.operation_id = $1`, the public key of
the create operation; when the create operation is absent the decoded
`public_key` column is NULL and row decoding fails, surfacing as
`FatalStorageError`.  The view fields are then read and parsed (a parse
failure is a panic). -/
def get_document (db : Db) (id : String) : Except StoreErr (Option StorageDocumentT) :=
  match db.documents.find? (fun r => r.document_id == id && !r.is_deleted) with
  | none => .ok none
  | some row =>
    match db.operations.find? (fun o => o.operation_id == id) with
    | none => .error .fatalStorage
    | some op =>
      match parseViewFieldRows db.operation_fields (viewFieldRowsFor db row.document_view_id) with
      | none => .error .panicked
      | some fs =>
        .ok (some { id := id, view_id := row.document_view_id, schema_id := row.schema_id,
                    fields := some fs, author := op.public_key, deleted := row.is_deleted })

/-- The `DocumentStore::get_document_by_view_id` implementation (document.rs
lines 125-197).  First the owning document id is looked up in `document_views`
(absent view: `Ok(None)`); then the non-deleted document row is fetched and
immediately unwrapped — `let document_row = document_row.unwrap();` at line 176
— so a view whose document is flagged deleted makes the function panic.  The
returned document carries the requested view id, not the document's current
one. -/
def get_document_by_view_id (db : Db) (vid : String) : Except StoreErr (Option StorageDocumentT) :=
  match db.document_views.find? (fun r => r.document_view_id == vid) with
  | none => .ok none
  | some vrow =>
    match db.documents.find? (fun r => r.document_id == vrow.document_id && !r.is_deleted) with
    | none => .error .panicked
    | some row =>
      match db.operations.find? (fun o => o.operation_id == vrow.document_id) with
      | none => .error .fatalStorage
      | some op =>
        match parseViewFieldRows db.operation_fields (viewFieldRowsFor db vid) with
        | none => .error .panicked
        | some fs =>
          .ok (some { id := row.document_id, view_id := vid, schema_id := row.schema_id,
                      fields := some fs, author := op.public_key, deleted := row.is_deleted })

/-- Field access on a returned document (`AsDocument::get`, backed by
`StorageDocument::fields`). -/
def StorageDocumentT.get (doc : StorageDocumentT) (name : String) : Option OperationValue :=
  match doc.fields with
  | none => none
  | some fs => (fs.find? (fun nv => nv.1 == name)).map (fun nv => nv.2.value)

/-- The schema id `SchemaId::Blob(1)`. -/
def blobSchemaId : String := "blob_v1"

/-- The schema id `SchemaId::BlobPiece(1)`. -/
def blobPieceSchemaId : String := "blob_piece_v1"

/-- The constant `MAX_BLOB_PIECES` (blob.rs line 19). -/
def MAX_BLOB_PIECES : Nat := 10000

/-- The Rust cast `length as usize` applied to the declared `i64` blob length
(blob.rs line 119): two's-complement reinterpretation modulo `2 ^ 64`. -/
def i64ToUsize (n : Int) : Nat := (n % (2 ^ 64 : Int)).toNat

/-- Modelled from the spec: resolution of one pinned relation list member by
the Query Engine (spec sections 4.4 step 3 and 6.2; the query module is not
under `src/`).  A piece view id resolves when a materialised view row with the
blob-piece schema exists for it and its `data` field dereferences to a string
value; the resolved payload is that string's bytes. -/
def resolvePieceData (db : Db) (vid : String) : Option (List Nat) :=
  match db.document_views.find?
      (fun r => r.document_view_id == vid && r.schema_id == blobPieceSchemaId) with
  | none => none
  | some _ =>
    match db.document_view_fields.find?
        (fun r => r.document_view_id == vid && r.name == "data") with
    | none => none
    | some fr =>
      match lookupOpField db.operation_fields fr.operation_id "data" with
      | some (.str s) => some s
      | _ => none

/-- Modelled from the spec: the anchored Query Engine call of
`document_to_blob_data` (blob.rs lines 79-93) — members of the pinned relation
list that resolve in storage, in the list's stored order, paginated to the
first `MAX_BLOB_PIECES` results. -/
def resolvePieces (db : Db) (viewIds : List String) : List (List Nat) :=
  (viewIds.filterMap (resolvePieceData db)).take MAX_BLOB_PIECES

/-- The helper `document_to_blob_data` (blob.rs lines 59-124): read the declared
`length` and `pieces` fields (a missing or differently-typed field is a
`panic!()`), query the resolvable pieces, then apply the empty-result,
piece-count and byte-length checks in that order. -/
def document_to_blob_data (db : Db) (blob : StorageDocumentT) :
    Except StoreErr (Option (List Nat)) :=
  match blob.get "length" with
  | some (.int length) =>
    match blob.get "pieces" with
    | some (.pinnedRelationList list) =>
      let results := resolvePieces db list
      if results.isEmpty then .error .noBlobPiecesFound
      else if results.length ≠ list.length then .error .missingPieces
      else
        let blob_data := results.flatten
        if blob_data.length ≠ i64ToUsize length then .error .incorrectLength
        else .ok (some blob_data)
    | _ => .error .panicked
  | _ => .error .panicked

/-- The public `SqlStore::get_blob` (blob.rs lines 25-37): load the root
document by id, reject non-blob schemas, then assemble. -/
def get_blob (db : Db) (id : String) : Except StoreErr (Option (List Nat)) :=
  match get_document db id with
  | .error e => .error e
  | .ok none => .ok none
  | .ok (some doc) =>
    if doc.schema_id ≠ blobSchemaId then .error .notBlobDocument
    else document_to_blob_data db doc

/-- The public `SqlStore::get_blob_by_view_id` (blob.rs lines 40-55): load the
root document by view id, reject non-blob schemas, then assemble. -/
def get_blob_by_view_id (db : Db) (vid : String) : Except StoreErr (Option (List Nat)) :=
  match get_document_by_view_id db vid with
  | .error e => .error e
  | .ok none => .ok none
  | .ok (some doc) =>
    if doc.schema_id ≠ blobSchemaId then .error .notBlobDocument
    else document_to_blob_data db doc

/-! ## General list helpers -/

/-- Helper: `find?` skips a prefix on which the predicate is false. -/
theorem find?_append_of_forall_false {α : Type} {p : α → Bool} {l₁ : List α} (l₂ : List α)
    (h : ∀ x ∈ l₁, p x = false) : List.find? p (l₁ ++ l₂) = List.find? p l₂ := by
  induction l₁ with
  | nil => simp
  | cons a l ih =>
    simp only [List.cons_append, List.find?, h a (List.mem_cons_self a l)]
    exact ih (fun x hx => h x (List.mem_cons_of_mem a hx))

/-- Helper: a filter dropping everything on the left part of an append. -/
theorem filter_append_left_false {α : Type} {p : α → Bool} {l₁ : List α} (l₂ : List α)
    (h : ∀ x ∈ l₁, p x = false) : (l₁ ++ l₂).filter p = l₂.filter p := by
  rw [List.filter_append]
  have : l₁.filter p = [] := List.filter_eq_nil_iff.mpr (fun a ha => by simp [h a ha])
  simp [this]

/-- Helper: mapping a function that fixes every element is the identity. -/
theorem map_eq_self_of_forall {α : Type} {f : α → α} {l : List α}
    (h : ∀ x ∈ l, f x = x) : l.map f = l := by
  induction l with
  | nil => rfl
  | cons a l ih =>
    simp only [List.map_cons, h a (List.mem_cons_self a l)]
    rw [ih (fun x hx => h x (List.mem_cons_of_mem a hx))]

/-! ## Shape lemmas for the write path -/

/-- Helper: `updateDocRow` never changes the `document_id` column. -/
theorem updateDocRow_document_id (d : DocT) (r : DocumentRowT) :
    (updateDocRow d r).document_id = r.document_id := by
  unfold updateDocRow
  split <;> rfl

/-- Helper: `updateDocRow` never changes the `schema_id` column. -/
theorem updateDocRow_schema_id (d : DocT) (r : DocumentRowT) :
    (updateDocRow d r).schema_id = r.schema_id := by
  unfold updateDocRow
  split <;> rfl

/-- Helper: inversion of a successful `document_views` insert. -/
theorem insertViewRowQ_ok_inv {db db' : Db} {vid docId schemaId : String}
    (h : insertViewRowQ db vid docId schemaId = .ok db') :
    db' = { db with document_views := db.document_views ++ [⟨vid, docId, schemaId⟩] } := by
  unfold insertViewRowQ at h
  split at h
  · exact absurd h (by simp)
  · split at h
    · exact (Except.ok.inj h).symm
    · exact absurd h (by simp)

/-- Helper: inversion of a successful `document_view_fields` insert. -/
theorem insertViewFieldRowQ_ok_inv {db db' : Db} {vid opId name : String}
    (h : insertViewFieldRowQ db vid opId name = .ok db') :
    db' = { db with document_view_fields := db.document_view_fields ++ [⟨vid, opId, name⟩] } := by
  unfold insertViewFieldRowQ at h
  split at h
  · exact (Except.ok.inj h).symm
  · exact absurd h (by simp)

/-- Helper: inserting field rows only ever touches the `document_view_fields`
table, on the success path and on the failure path alike. -/
theorem insertFieldRows_preserves (vid : String) :
    ∀ (l : List (String × DocumentViewValueT)) (db : Db),
    (insertFieldRows vid db l).db.documents = db.documents ∧
    (insertFieldRows vid db l).db.document_views = db.document_views ∧
    (insertFieldRows vid db l).db.operations = db.operations ∧
    (insertFieldRows vid db l).db.operation_fields = db.operation_fields := by
  intro l
  induction l with
  | nil => intro db; exact ⟨rfl, rfl, rfl, rfl⟩
  | cons nv rest ih =>
    intro db
    simp only [insertFieldRows]
    cases hq : insertViewFieldRowQ db vid nv.2.operation_id nv.1 with
    | error e => exact ⟨rfl, rfl, rfl, rfl⟩
    | ok db1 =>
      dsimp only
      have hdb1 := insertViewFieldRowQ_ok_inv hq
      subst hdb1
      exact ih _

/-- Helper: when every referenced operation exists, inserting the field rows of
a view succeeds and appends exactly one row per field, in field order. -/
theorem insertFieldRows_ok (vid : String) :
    ∀ (l : List (String × DocumentViewValueT)) (db : Db),
    (∀ nv ∈ l, db.operations.any (fun o => o.operation_id == nv.2.operation_id) = true) →
    insertFieldRows vid db l =
      ⟨{ db with document_view_fields :=
          db.document_view_fields ++ l.map (fun nv => ⟨vid, nv.2.operation_id, nv.1⟩) }, none⟩ := by
  intro l
  induction l with
  | nil => intro db _; simp [insertFieldRows]
  | cons nv rest ih =>
    intro db h
    have hop := h nv (List.mem_cons_self nv rest)
    have hq : insertViewFieldRowQ db vid nv.2.operation_id nv.1 =
        .ok { db with document_view_fields :=
                db.document_view_fields ++ [⟨vid, nv.2.operation_id, nv.1⟩] } := by
      simp [insertViewFieldRowQ, hop]
    have hrest := ih { db with document_view_fields :=
        db.document_view_fields ++ [⟨vid, nv.2.operation_id, nv.1⟩] }
      (fun x hx => h x (List.mem_cons_of_mem nv hx))
    simp only [insertFieldRows, hq]
    rw [hrest]
    simp

/-- Helper: the full shape of a successful `insert_document` call for a fresh,
non-deleted document carrying a view: the document row, the view row and one
field row per view field are appended; nothing else changes. -/
theorem insert_document_fresh (db : Db) (d : DocT) (fs : List (String × DocumentViewValueT))
    (hdel : d.is_deleted = false) (hfs : d.fields = some fs)
    (h0 : ∀ r ∈ db.documents, r.document_id ≠ d.id)
    (h2 : ∀ r ∈ db.document_views, r.document_view_id ≠ d.view_id)
    (h1 : ∀ nv ∈ fs, db.operations.any (fun o => o.operation_id == nv.2.operation_id) = true) :
    SqlStore_insert_document db d =
      ⟨{ db with
          documents := db.documents ++ [⟨d.id, d.view_id, d.schema_id, false⟩],
          document_views := db.document_views ++ [⟨d.view_id, d.id, d.schema_id⟩],
          document_view_fields := db.document_view_fields ++
            fs.map (fun nv => ⟨d.view_id, nv.2.operation_id, nv.1⟩) }, none⟩ := by
  have hany0 : db.documents.any (fun r => r.document_id == d.id) = false := by
    rw [List.any_eq_false]
    intro r hr
    simp [beq_eq_false_iff_ne.mpr (h0 r hr)]
  have hup : upsertDocumentRow db d =
      { db with documents := db.documents ++ [⟨d.id, d.view_id, d.schema_id, false⟩] } := by
    simp [upsertDocumentRow, hany0, hdel]
  have hany2 : db.document_views.any (fun r => r.document_view_id == d.view_id) = false := by
    rw [List.any_eq_false]
    intro r hr
    simp [beq_eq_false_iff_ne.mpr (h2 r hr)]
  have hanyd :
      (db.documents ++ [(⟨d.id, d.view_id, d.schema_id, false⟩ : DocumentRowT)]).any
        (fun r => r.document_id == d.id) = true := by
    rw [List.any_append]
    simp
  have hview : insertViewRowQ
      { db with documents := db.documents ++ [⟨d.id, d.view_id, d.schema_id, false⟩] }
      d.view_id d.id d.schema_id =
      .ok { db with
              documents := db.documents ++ [⟨d.id, d.view_id, d.schema_id, false⟩],
              document_views := db.document_views ++ [⟨d.view_id, d.id, d.schema_id⟩] } := by
    simp only [insertViewRowQ, hany2, hanyd]
    simp
  simp only [SqlStore_insert_document, insert_document_helper, hdel, hfs, hup, hview]
  rw [insertFieldRows_ok d.view_id fs _ (by intro nv hnv; exact h1 nv hnv)]

/-- Helper: the full shape of a successful `insert_document` call for a
non-deleted document with a view whose document row already exists: the
document row is updated in place via `updateDocRow`, and the view row and field
rows are appended. -/
theorem insert_document_update (db : Db) (d : DocT) (fs : List (String × DocumentViewValueT))
    (hdel : d.is_deleted = false) (hfs : d.fields = some fs)
    (hconf : db.documents.any (fun r => r.document_id == d.id) = true)
    (h2 : ∀ r ∈ db.document_views, r.document_view_id ≠ d.view_id)
    (h1 : ∀ nv ∈ fs, db.operations.any (fun o => o.operation_id == nv.2.operation_id) = true) :
    SqlStore_insert_document db d =
      ⟨{ db with
          documents := db.documents.map (updateDocRow d),
          document_views := db.document_views ++ [⟨d.view_id, d.id, d.schema_id⟩],
          document_view_fields := db.document_view_fields ++
            fs.map (fun nv => ⟨d.view_id, nv.2.operation_id, nv.1⟩) }, none⟩ := by
  have hup : upsertDocumentRow db d = { db with documents := db.documents.map (updateDocRow d) } := by
    simp [upsertDocumentRow, hconf]
  have hany2 : db.document_views.any (fun r => r.document_view_id == d.view_id) = false := by
    rw [List.any_eq_false]
    intro r hr
    simp [beq_eq_false_iff_ne.mpr (h2 r hr)]
  have hanyd : (db.documents.map (updateDocRow d)).any (fun r => r.document_id == d.id) = true := by
    obtain ⟨r, hr, hb⟩ := List.any_eq_true.mp hconf
    exact List.any_eq_true.mpr
      ⟨updateDocRow d r, List.mem_map_of_mem _ hr, by rw [updateDocRow_document_id]; exact hb⟩
  have hview : insertViewRowQ { db with documents := db.documents.map (updateDocRow d) }
      d.view_id d.id d.schema_id =
      .ok { db with
              documents := db.documents.map (updateDocRow d),
              document_views := db.document_views ++ [⟨d.view_id, d.id, d.schema_id⟩] } := by
    simp only [insertViewRowQ, hany2, hanyd]
    simp
  simp only [SqlStore_insert_document, insert_document_helper, hdel, hfs, hup, hview]
  rw [insertFieldRows_ok d.view_id fs _ (by intro nv hnv; exact h1 nv hnv)]

/-- Helper: whatever happens after the upsert, the `documents` table of the
state left by `insert_document` is exactly the upserted table. -/
theorem insert_document_documents_eq (db : Db) (d : DocT) :
    (SqlStore_insert_document db d).db.documents = (upsertDocumentRow db d).documents := by
  simp only [SqlStore_insert_document, insert_document_helper]
  cases hdel : d.is_deleted with
  | true => rfl
  | false =>
    cases hfs : d.fields with
    | none => rfl
    | some fs =>
      dsimp only
      cases hv : insertViewRowQ (upsertDocumentRow db d) d.view_id d.id d.schema_id with
      | error e => rfl
      | ok db2 =>
        dsimp only
        have hdb2 := insertViewRowQ_ok_inv hv
        subst hdb2
        exact (insertFieldRows_preserves d.view_id fs _).1

/-- Helper: parsing back the rows inserted for a view whose values all
dereference correctly recovers the view's field mapping. -/
theorem parseViewFieldRows_map (ofs : List OperationFieldT) (vid : String) :
    ∀ (fs : List (String × DocumentViewValueT)),
    (∀ nv ∈ fs, lookupOpField ofs nv.2.operation_id nv.1 = some nv.2.value) →
    parseViewFieldRows ofs (fs.map (fun nv => ⟨vid, nv.2.operation_id, nv.1⟩)) = some fs := by
  intro fs
  induction fs with
  | nil => intro _; rfl
  | cons nv rest ih =>
    intro h
    simp only [List.map_cons, parseViewFieldRows, h nv (List.mem_cons_self nv rest),
      ih (fun x hx => h x (List.mem_cons_of_mem nv hx))]

/-! ## Claim theorems: document store -/

/-- C7: insert-then-get round-trip.  For every well-formed non-deleted document
`d` — its view id fresh, every referenced operation present, its create
operation stored, and each field value dereferencing to the operation field
value — `insert_document` succeeds and `get_document` on the resulting state
returns a document with the same id, view id, schema id and field mapping. -/
theorem insert_then_get_document_roundtrip (db : Db) (d : DocT)
    (fs : List (String × DocumentViewValueT)) (opr : OperationRowT)
    (hdel : d.is_deleted = false) (hfs : d.fields = some fs)
    (h0 : ∀ r ∈ db.documents, r.document_id ≠ d.id)
    (h2 : ∀ r ∈ db.document_views, r.document_view_id ≠ d.view_id)
    (h3 : ∀ r ∈ db.document_view_fields, r.document_view_id ≠ d.view_id)
    (h1 : ∀ nv ∈ fs, db.operations.any (fun o => o.operation_id == nv.2.operation_id) = true)
    (h4 : db.operations.find? (fun o => o.operation_id == d.id) = some opr)
    (h5 : ∀ nv ∈ fs, lookupOpField db.operation_fields nv.2.operation_id nv.1 = some nv.2.value) :
    (SqlStore_insert_document db d).err = none ∧
    get_document (SqlStore_insert_document db d).db d.id =
      .ok (some ⟨d.id, d.view_id, d.schema_id, some fs, opr.public_key, false⟩) := by
  rw [insert_document_fresh db d fs hdel hfs h0 h2 h1]
  refine ⟨rfl, ?_⟩
  have hfind : (db.documents ++ [(⟨d.id, d.view_id, d.schema_id, false⟩ : DocumentRowT)]).find?
      (fun r => r.document_id == d.id && !r.is_deleted) =
      some ⟨d.id, d.view_id, d.schema_id, false⟩ := by
    rw [find?_append_of_forall_false _
      (fun r hr => by simp [beq_eq_false_iff_ne.mpr (h0 r hr)])]
    simp [List.find?]
  have hrows : (db.document_view_fields ++
        fs.map (fun nv => (⟨d.view_id, nv.2.operation_id, nv.1⟩ : DocumentViewFieldRowT))).filter
      (fun r => r.document_view_id == d.view_id) =
      fs.map (fun nv => ⟨d.view_id, nv.2.operation_id, nv.1⟩) := by
    rw [filter_append_left_false _
      (fun r hr => by simp [beq_eq_false_iff_ne.mpr (h3 r hr)])]
    exact List.filter_eq_self.mpr (fun r hr => by
      obtain ⟨nv, _, rfl⟩ := List.mem_map.mp hr
      simp)
  simp only [get_document, viewFieldRowsFor, hfind, h4, hrows]
  rw [parseViewFieldRows_map db.operation_fields d.view_id fs h5]

/-- Witness for C7 at a concrete store and document. -/
theorem insert_then_get_document_roundtrip_witness :
    (SqlStore_insert_document
        ⟨[], [], [], [⟨"doc1", "pkc"⟩], [⟨"doc1", "f", .int 7⟩]⟩
        ⟨"doc1", "view1", "sch1", some [("f", ⟨"doc1", .int 7⟩)], false⟩).err = none ∧
    get_document (SqlStore_insert_document
        ⟨[], [], [], [⟨"doc1", "pkc"⟩], [⟨"doc1", "f", .int 7⟩]⟩
        ⟨"doc1", "view1", "sch1", some [("f", ⟨"doc1", .int 7⟩)], false⟩).db "doc1" =
      .ok (some ⟨"doc1", "view1", "sch1", some [("f", ⟨"doc1", .int 7⟩)], "pkc", false⟩) :=
  insert_then_get_document_roundtrip
    ⟨[], [], [], [⟨"doc1", "pkc"⟩], [⟨"doc1", "f", .int 7⟩]⟩
    ⟨"doc1", "view1", "sch1", some [("f", ⟨"doc1", .int 7⟩)], false⟩
    [("f", ⟨"doc1", .int 7⟩)] ⟨"doc1", "pkc"⟩
    rfl rfl (by decide) (by decide) (by decide) (by decide) rfl (by decide)

/-- C8: frame condition of the document upsert.  When a row for the document id
already exists, the state after any `insert_document` call has its `documents`
table equal to the old table mapped through `updateDocRow`, and `updateDocRow`
provably never changes the `document_id` or `schema_id` column of any row: only
the current view id and the deleted flag are updated. -/
theorem insert_document_upsert_frame (db : Db) (d : DocT)
    (h : db.documents.any (fun r => r.document_id == d.id) = true) :
    (SqlStore_insert_document db d).db.documents = db.documents.map (updateDocRow d) ∧
    ∀ r : DocumentRowT, (updateDocRow d r).document_id = r.document_id ∧
      (updateDocRow d r).schema_id = r.schema_id := by
  constructor
  · rw [insert_document_documents_eq]
    simp [upsertDocumentRow, h]
  · intro r
    exact ⟨updateDocRow_document_id d r, updateDocRow_schema_id d r⟩

/-- Witness for C8 at a concrete store holding a row for the document. -/
theorem insert_document_upsert_frame_witness :
    (SqlStore_insert_document
        ⟨[⟨"doc1", "v0", "sch1", false⟩], [], [], [⟨"doc1", "pkc"⟩], []⟩
        ⟨"doc1", "v9", "other_schema", none, true⟩).db.documents =
      [⟨"doc1", "v0", "sch1", false⟩].map (updateDocRow ⟨"doc1", "v9", "other_schema", none, true⟩) ∧
    ∀ r : DocumentRowT,
      (updateDocRow ⟨"doc1", "v9", "other_schema", none, true⟩ r).document_id = r.document_id ∧
      (updateDocRow ⟨"doc1", "v9", "other_schema", none, true⟩ r).schema_id = r.schema_id :=
  insert_document_upsert_frame
    ⟨[⟨"doc1", "v0", "sch1", false⟩], [], [], [⟨"doc1", "pkc"⟩], []⟩
    ⟨"doc1", "v9", "other_schema", none, true⟩ (by decide)

/-- C9: view pinning.  Insert a document at view `V1`, then insert it again
updated to view `V2`.  Reading by `V1` returns the document pinned at `V1` —
the requested view id and the `V1` field mapping — while reading by document id
returns the `V2` state. -/
theorem view_pinning (db : Db) (id s V1 V2 : String)
    (fs1 fs2 : List (String × DocumentViewValueT)) (opr : OperationRowT)
    (hV : V1 ≠ V2)
    (h0 : ∀ r ∈ db.documents, r.document_id ≠ id)
    (h2a : ∀ r ∈ db.document_views, r.document_view_id ≠ V1)
    (h2b : ∀ r ∈ db.document_views, r.document_view_id ≠ V2)
    (h3a : ∀ r ∈ db.document_view_fields, r.document_view_id ≠ V1)
    (h3b : ∀ r ∈ db.document_view_fields, r.document_view_id ≠ V2)
    (h1a : ∀ nv ∈ fs1, db.operations.any (fun o => o.operation_id == nv.2.operation_id) = true)
    (h1b : ∀ nv ∈ fs2, db.operations.any (fun o => o.operation_id == nv.2.operation_id) = true)
    (h4 : db.operations.find? (fun o => o.operation_id == id) = some opr)
    (h5a : ∀ nv ∈ fs1, lookupOpField db.operation_fields nv.2.operation_id nv.1 = some nv.2.value)
    (h5b : ∀ nv ∈ fs2, lookupOpField db.operation_fields nv.2.operation_id nv.1 = some nv.2.value) :
    (SqlStore_insert_document db ⟨id, V1, s, some fs1, false⟩).err = none ∧
    (SqlStore_insert_document (SqlStore_insert_document db ⟨id, V1, s, some fs1, false⟩).db
        ⟨id, V2, s, some fs2, false⟩).err = none ∧
    get_document_by_view_id (SqlStore_insert_document
        (SqlStore_insert_document db ⟨id, V1, s, some fs1, false⟩).db
        ⟨id, V2, s, some fs2, false⟩).db V1 =
      .ok (some ⟨id, V1, s, some fs1, opr.public_key, false⟩) ∧
    get_document (SqlStore_insert_document
        (SqlStore_insert_document db ⟨id, V1, s, some fs1, false⟩).db
        ⟨id, V2, s, some fs2, false⟩).db id =
      .ok (some ⟨id, V2, s, some fs2, opr.public_key, false⟩) := by
  have e1 : SqlStore_insert_document db ⟨id, V1, s, some fs1, false⟩ =
      ⟨{ db with
          documents := db.documents ++ [⟨id, V1, s, false⟩],
          document_views := db.document_views ++ [⟨V1, id, s⟩],
          document_view_fields := db.document_view_fields ++
            fs1.map (fun nv => ⟨V1, nv.2.operation_id, nv.1⟩) }, none⟩ :=
    insert_document_fresh db ⟨id, V1, s, some fs1, false⟩ fs1 rfl rfl h0 h2a h1a
  have hconf : ((db.documents ++ [(⟨id, V1, s, false⟩ : DocumentRowT)]).any
      (fun r => r.document_id == id)) = true := by
    rw [List.any_append]
    simp
  have h2c : ∀ r ∈ db.document_views ++ [(⟨V1, id, s⟩ : DocumentViewRowT)],
      r.document_view_id ≠ V2 := by
    intro r hr
    rcases List.mem_append.mp hr with h | h
    · exact h2b r h
    · rw [List.mem_singleton.mp h]
      exact hV
  have e2 : SqlStore_insert_document
      { db with
          documents := db.documents ++ [⟨id, V1, s, false⟩],
          document_views := db.document_views ++ [⟨V1, id, s⟩],
          document_view_fields := db.document_view_fields ++
            fs1.map (fun nv => ⟨V1, nv.2.operation_id, nv.1⟩) }
      ⟨id, V2, s, some fs2, false⟩ =
      ⟨{ db with
          documents := (db.documents ++ [(⟨id, V1, s, false⟩ : DocumentRowT)]).map
            (updateDocRow ⟨id, V2, s, some fs2, false⟩),
          document_views := (db.document_views ++ [⟨V1, id, s⟩]) ++ [⟨V2, id, s⟩],
          document_view_fields := (db.document_view_fields ++
              fs1.map (fun nv => ⟨V1, nv.2.operation_id, nv.1⟩)) ++
            fs2.map (fun nv => ⟨V2, nv.2.operation_id, nv.1⟩) }, none⟩ :=
    insert_document_update
      { db with
          documents := db.documents ++ [⟨id, V1, s, false⟩],
          document_views := db.document_views ++ [⟨V1, id, s⟩],
          document_view_fields := db.document_view_fields ++
            fs1.map (fun nv => ⟨V1, nv.2.operation_id, nv.1⟩) }
      ⟨id, V2, s, some fs2, false⟩ fs2 rfl rfl hconf h2c h1b
  have hdocs : (db.documents ++ [(⟨id, V1, s, false⟩ : DocumentRowT)]).map
      (updateDocRow ⟨id, V2, s, some fs2, false⟩) =
      db.documents ++ [⟨id, V2, s, false⟩] := by
    rw [List.map_append]
    rw [map_eq_self_of_forall (fun r hr => by
      unfold updateDocRow
      rw [if_neg]
      simp [beq_eq_false_iff_ne.mpr (h0 r hr)])]
    simp [updateDocRow]
  rw [hdocs] at e2
  have hfv : ((db.document_views ++ [(⟨V1, id, s⟩ : DocumentViewRowT)]) ++
        [(⟨V2, id, s⟩ : DocumentViewRowT)]).find?
      (fun r => r.document_view_id == V1) = some ⟨V1, id, s⟩ := by
    rw [List.append_assoc]
    rw [find?_append_of_forall_false _
      (fun r hr => by simp [beq_eq_false_iff_ne.mpr (h2a r hr)])]
    simp [List.find?]
  have hfd : (db.documents ++ [(⟨id, V2, s, false⟩ : DocumentRowT)]).find?
      (fun r => r.document_id == id && !r.is_deleted) = some ⟨id, V2, s, false⟩ := by
    rw [find?_append_of_forall_false _
      (fun r hr => by simp [beq_eq_false_iff_ne.mpr (h0 r hr)])]
    simp [List.find?]
  have hrows1 : ((db.document_view_fields ++
        fs1.map (fun nv => (⟨V1, nv.2.operation_id, nv.1⟩ : DocumentViewFieldRowT))) ++
        fs2.map (fun nv => (⟨V2, nv.2.operation_id, nv.1⟩ : DocumentViewFieldRowT))).filter
      (fun r => r.document_view_id == V1) =
      fs1.map (fun nv => ⟨V1, nv.2.operation_id, nv.1⟩) := by
    rw [List.append_assoc]
    rw [filter_append_left_false _
      (fun r hr => by simp [beq_eq_false_iff_ne.mpr (h3a r hr)])]
    rw [List.filter_append]
    rw [List.filter_eq_self.mpr (fun r hr => by
      obtain ⟨nv, _, rfl⟩ := List.mem_map.mp hr
      simp)]
    rw [List.filter_eq_nil_iff.mpr (fun r hr => by
      obtain ⟨nv, _, rfl⟩ := List.mem_map.mp hr
      simp [beq_eq_false_iff_ne.mpr (Ne.symm hV)])]
    simp
  have hrows2 : ((db.document_view_fields ++
        fs1.map (fun nv => (⟨V1, nv.2.operation_id, nv.1⟩ : DocumentViewFieldRowT))) ++
        fs2.map (fun nv => (⟨V2, nv.2.operation_id, nv.1⟩ : DocumentViewFieldRowT))).filter
      (fun r => r.document_view_id == V2) =
      fs2.map (fun nv => ⟨V2, nv.2.operation_id, nv.1⟩) := by
    rw [List.append_assoc]
    rw [filter_append_left_false _
      (fun r hr => by simp [beq_eq_false_iff_ne.mpr (h3b r hr)])]
    rw [List.filter_append]
    rw [List.filter_eq_nil_iff.mpr (fun r hr => by
      obtain ⟨nv, _, rfl⟩ := List.mem_map.mp hr
      simp [beq_eq_false_iff_ne.mpr hV])]
    rw [List.filter_eq_self.mpr (fun r hr => by
      obtain ⟨nv, _, rfl⟩ := List.mem_map.mp hr
      simp)]
    simp
  have hparse1 : parseViewFieldRows db.operation_fields
      (fs1.map (fun nv => ⟨V1, nv.2.operation_id, nv.1⟩)) = some fs1 :=
    parseViewFieldRows_map db.operation_fields V1 fs1 h5a
  have hparse2 : parseViewFieldRows db.operation_fields
      (fs2.map (fun nv => ⟨V2, nv.2.operation_id, nv.1⟩)) = some fs2 :=
    parseViewFieldRows_map db.operation_fields V2 fs2 h5b
  refine ⟨by rw [e1], ?_, ?_, ?_⟩
  · simp only [e1, e2]
  · simp only [e1, e2, get_document_by_view_id, viewFieldRowsFor, hfv, hfd, h4, hrows1, hparse1]
  · simp only [e1, e2, get_document, viewFieldRowsFor, hfd, h4, hrows2, hparse2]

/-- Witness for C9 at a concrete store, document and pair of views. -/
theorem view_pinning_witness :
    (SqlStore_insert_document
        ⟨[], [], [], [⟨"d1", "pk"⟩, ⟨"u1", "pku"⟩], [⟨"d1", "f", .int 1⟩, ⟨"u1", "f", .int 2⟩]⟩
        ⟨"d1", "v1", "sch1", some [("f", ⟨"d1", .int 1⟩)], false⟩).err = none ∧
    (SqlStore_insert_document (SqlStore_insert_document
        ⟨[], [], [], [⟨"d1", "pk"⟩, ⟨"u1", "pku"⟩], [⟨"d1", "f", .int 1⟩, ⟨"u1", "f", .int 2⟩]⟩
        ⟨"d1", "v1", "sch1", some [("f", ⟨"d1", .int 1⟩)], false⟩).db
        ⟨"d1", "v2", "sch1", some [("f", ⟨"u1", .int 2⟩)], false⟩).err = none ∧
    get_document_by_view_id (SqlStore_insert_document (SqlStore_insert_document
        ⟨[], [], [], [⟨"d1", "pk"⟩, ⟨"u1", "pku"⟩], [⟨"d1", "f", .int 1⟩, ⟨"u1", "f", .int 2⟩]⟩
        ⟨"d1", "v1", "sch1", some [("f", ⟨"d1", .int 1⟩)], false⟩).db
        ⟨"d1", "v2", "sch1", some [("f", ⟨"u1", .int 2⟩)], false⟩).db "v1" =
      .ok (some ⟨"d1", "v1", "sch1", some [("f", ⟨"d1", .int 1⟩)], "pk", false⟩) ∧
    get_document (SqlStore_insert_document (SqlStore_insert_document
        ⟨[], [], [], [⟨"d1", "pk"⟩, ⟨"u1", "pku"⟩], [⟨"d1", "f", .int 1⟩, ⟨"u1", "f", .int 2⟩]⟩
        ⟨"d1", "v1", "sch1", some [("f", ⟨"d1", .int 1⟩)], false⟩).db
        ⟨"d1", "v2", "sch1", some [("f", ⟨"u1", .int 2⟩)], false⟩).db "d1" =
      .ok (some ⟨"d1", "v2", "sch1", some [("f", ⟨"u1", .int 2⟩)], "pk", false⟩) :=
  view_pinning
    ⟨[], [], [], [⟨"d1", "pk"⟩, ⟨"u1", "pku"⟩], [⟨"d1", "f", .int 1⟩, ⟨"u1", "f", .int 2⟩]⟩
    "d1" "sch1" "v1" "v2" [("f", ⟨"d1", .int 1⟩)] [("f", ⟨"u1", .int 2⟩)] ⟨"d1", "pk"⟩
    (by decide) (by decide) (by decide) (by decide) (by decide) (by decide)
    (by decide) (by decide) rfl (by decide) (by decide)

/-- C1: evaluation of the code at a failing input.  The store holds one
operation `op1`; `insert_document` is called with a non-deleted document whose
single field references the unknown operation `missing_op`.  The field-row
insert fails and the call returns an error — but because the helper inserts ran
on pool connections rather than inside the transaction begun by
`SqlStore::insert_document`, the already-executed document upsert and view-row
insert persist: the `documents` and `document_views` tables are changed by the
failed call, contradicting the claimed rollback-to-`begin()` atomicity. -/
theorem insert_document_failed_call_leaves_partial_writes :
    (SqlStore_insert_document
        ⟨[], [], [], [⟨"op1", "pk1"⟩], [⟨"op1", "f", .int 7⟩]⟩
        ⟨"doc1", "view1", "sch1", some [("f", ⟨"missing_op", .int 7⟩)], false⟩).err =
      some .fatalStorage ∧
    (SqlStore_insert_document
        ⟨[], [], [], [⟨"op1", "pk1"⟩], [⟨"op1", "f", .int 7⟩]⟩
        ⟨"doc1", "view1", "sch1", some [("f", ⟨"missing_op", .int 7⟩)], false⟩).db.documents =
      [⟨"doc1", "view1", "sch1", false⟩] ∧
    (SqlStore_insert_document
        ⟨[], [], [], [⟨"op1", "pk1"⟩], [⟨"op1", "f", .int 7⟩]⟩
        ⟨"doc1", "view1", "sch1", some [("f", ⟨"missing_op", .int 7⟩)], false⟩).db.document_views =
      [⟨"view1", "doc1", "sch1"⟩] :=
  ⟨rfl, rfl, rfl⟩

/-- C2: evaluation of the code at a failing input.  A document is inserted at
view `view1`, then inserted again as deleted (its delete state carries view id
`view2` and no view).  The view row for `view1` remains in `document_views`,
so `get_document_by_view_id "view1"` finds the owning document id, the
deleted-filtered document query returns no row, and the source's
`document_row.unwrap()` (document.rs line 176) panics instead of returning the
empty optional. -/
theorem get_document_by_view_id_panics_on_deleted_documents_view :
    (SqlStore_insert_document
        ⟨[], [], [], [⟨"op1", "pk1"⟩], [⟨"op1", "f", .int 7⟩]⟩
        ⟨"doc1", "view1", "sch1", some [("f", ⟨"op1", .int 7⟩)], false⟩).err = none ∧
    (SqlStore_insert_document
        (SqlStore_insert_document
          ⟨[], [], [], [⟨"op1", "pk1"⟩], [⟨"op1", "f", .int 7⟩]⟩
          ⟨"doc1", "view1", "sch1", some [("f", ⟨"op1", .int 7⟩)], false⟩).db
        ⟨"doc1", "view2", "sch1", none, true⟩).err = none ∧
    get_document_by_view_id
        (SqlStore_insert_document
          (SqlStore_insert_document
            ⟨[], [], [], [⟨"op1", "pk1"⟩], [⟨"op1", "f", .int 7⟩]⟩
            ⟨"doc1", "view1", "sch1", some [("f", ⟨"op1", .int 7⟩)], false⟩).db
          ⟨"doc1", "view2", "sch1", none, true⟩).db "view1" =
      .error .panicked :=
  ⟨rfl, rfl, rfl⟩

/-- C5: evaluation of the code at a failing input.  The store holds a document
row `doc1` and one operation `op1`; `insert_document_view` is called with a
view whose single field references the unknown operation `missing_op`.  The
view-row insert succeeds on its pool connection and the field-row insert then
fails, so the call returns an error while the new `document_views` row
persists — contradicting the claim that an erroring call adds no rows. -/
theorem insert_document_view_failed_call_leaves_view_row :
    (SqlStore_insert_document_view
        ⟨[⟨"doc1", "v0", "sch1", false⟩], [], [], [⟨"op1", "pk1"⟩], []⟩
        ⟨"view1", [("f", ⟨"missing_op", .int 1⟩)]⟩ "doc1" "sch1").err = some .fatalStorage ∧
    (SqlStore_insert_document_view
        ⟨[⟨"doc1", "v0", "sch1", false⟩], [], [], [⟨"op1", "pk1"⟩], []⟩
        ⟨"view1", [("f", ⟨"missing_op", .int 1⟩)]⟩ "doc1" "sch1").db.document_views =
      [⟨"view1", "doc1", "sch1"⟩] :=
  ⟨rfl, rfl⟩

/-- C3 counterexample: re-inserting an identical document view does not
succeed.  After a first successful `insert_document_view` of view `view9`, the
very same call again returns a fatal storage error (the plain
`INSERT INTO document_views` hits the primary-key conflict on the view id),
falsifying the claimed idempotent commit. -/
theorem insert_document_view_reinsert_not_idempotent :
    (SqlStore_insert_document_view
        ⟨[⟨"doc1", "v0", "sch1", false⟩], [], [], [⟨"op1", "pk1"⟩], []⟩
        ⟨"view9", [("f", ⟨"op1", .int 1⟩)]⟩ "doc1" "sch1").err = none ∧
    (SqlStore_insert_document_view
        (SqlStore_insert_document_view
          ⟨[⟨"doc1", "v0", "sch1", false⟩], [], [], [⟨"op1", "pk1"⟩], []⟩
          ⟨"view9", [("f", ⟨"op1", .int 1⟩)]⟩ "doc1" "sch1").db
        ⟨"view9", [("f", ⟨"op1", .int 1⟩)]⟩ "doc1" "sch1").err = some .fatalStorage :=
  ⟨rfl, rfl⟩

/-- C3 as amended: for every store already containing a row for the view id,
calling `insert_document_view` again — with the same or any contents — returns
a fatal storage error (the uniqueness conflict on the `document_views` primary
key) and leaves the entire store unchanged; in particular no
`document_view_fields` rows are duplicated. -/
theorem insert_document_view_existing_id_fails_unchanged (db : Db) (v : DocumentViewT)
    (docId schemaId : String)
    (h : ∃ r ∈ db.document_views, r.document_view_id = v.view_id) :
    SqlStore_insert_document_view db v docId schemaId = ⟨db, some .fatalStorage⟩ := by
  have hany : db.document_views.any (fun r => r.document_view_id == v.view_id) = true := by
    obtain ⟨r, hr, he⟩ := h
    exact List.any_eq_true.mpr ⟨r, hr, by simp [he]⟩
  simp [SqlStore_insert_document_view, insertViewRowQ, hany]

/-- Witness for the amended C3 at a concrete store holding the view row. -/
theorem insert_document_view_existing_id_fails_unchanged_witness :
    SqlStore_insert_document_view
        ⟨[⟨"doc1", "v0", "sch1", false⟩], [⟨"view9", "doc1", "sch1"⟩],
          [⟨"view9", "op1", "f"⟩], [⟨"op1", "pk1"⟩], []⟩
        ⟨"view9", [("f", ⟨"op1", .int 1⟩)]⟩ "doc1" "sch1" =
      ⟨⟨[⟨"doc1", "v0", "sch1", false⟩], [⟨"view9", "doc1", "sch1"⟩],
          [⟨"view9", "op1", "f"⟩], [⟨"op1", "pk1"⟩], []⟩, some .fatalStorage⟩ :=
  insert_document_view_existing_id_fails_unchanged
    ⟨[⟨"doc1", "v0", "sch1", false⟩], [⟨"view9", "doc1", "sch1"⟩],
      [⟨"view9", "op1", "f"⟩], [⟨"op1", "pk1"⟩], []⟩
    ⟨"view9", [("f", ⟨"op1", .int 1⟩)]⟩ "doc1" "sch1" (by decide)

/-! ## Helpers for the blob assembler -/

/-- Helper: at most one piece resolves per declared list entry, so the resolved
count never exceeds the declared count. -/
theorem resolvePieces_length_le (db : Db) (ps : List String) :
    (resolvePieces db ps).length ≤ ps.length := by
  unfold resolvePieces
  rw [List.length_take]
  exact le_trans (min_le_right _ _) (List.length_filterMap_le _ _)

/-- Helper: on a stored blob document, `get_blob` reduces to the assembly
helper. -/
theorem get_blob_eq {db : Db} {id : String} {doc : StorageDocumentT}
    (hdoc : get_document db id = .ok (some doc)) (hs : doc.schema_id = blobSchemaId) :
    get_blob db id = document_to_blob_data db doc := by
  simp [get_blob, hdoc, hs]

/-- Helper: on a stored blob view, `get_blob_by_view_id` reduces to the
assembly helper. -/
theorem get_blob_by_view_id_eq {db : Db} {vid : String} {doc : StorageDocumentT}
    (hdoc : get_document_by_view_id db vid = .ok (some doc))
    (hs : doc.schema_id = blobSchemaId) :
    get_blob_by_view_id db vid = document_to_blob_data db doc := by
  simp [get_blob_by_view_id, hdoc, hs]

/-- Helper: a successful `get_blob` goes through a stored blob-schema document
and a successful assembly. -/
theorem get_blob_ok_inv {db : Db} {id : String} {bytes : List Nat}
    (h : get_blob db id = .ok (some bytes)) :
    ∃ doc, get_document db id = .ok (some doc) ∧ doc.schema_id = blobSchemaId ∧
      document_to_blob_data db doc = .ok (some bytes) := by
  unfold get_blob at h
  split at h
  · exact absurd h (by simp)
  · exact absurd h (by simp)
  · next doc heq =>
    split at h
    · exact absurd h (by simp)
    · next hs => exact ⟨doc, heq, not_not.mp hs, h⟩

/-- Helper: a successful `get_blob_by_view_id` goes through a stored blob-schema
document and a successful assembly. -/
theorem get_blob_by_view_id_ok_inv {db : Db} {vid : String} {bytes : List Nat}
    (h : get_blob_by_view_id db vid = .ok (some bytes)) :
    ∃ doc, get_document_by_view_id db vid = .ok (some doc) ∧ doc.schema_id = blobSchemaId ∧
      document_to_blob_data db doc = .ok (some bytes) := by
  unfold get_blob_by_view_id at h
  split at h
  · exact absurd h (by simp)
  · exact absurd h (by simp)
  · next doc heq =>
    split at h
    · exact absurd h (by simp)
    · next hs => exact ⟨doc, heq, not_not.mp hs, h⟩

/-- Helper: reduction of the assembly helper once the `length` and `pieces`
fields are known. -/
theorem document_to_blob_data_eq (db : Db) (doc : StorageDocumentT) (L : Int) (ps : List String)
    (hlen : doc.get "length" = some (.int L))
    (hps : doc.get "pieces" = some (.pinnedRelationList ps)) :
    document_to_blob_data db doc =
      (if (resolvePieces db ps).isEmpty then .error .noBlobPiecesFound
       else if (resolvePieces db ps).length ≠ ps.length then .error .missingPieces
       else if (resolvePieces db ps).flatten.length ≠ i64ToUsize L then .error .incorrectLength
       else .ok (some (resolvePieces db ps).flatten)) := by
  simp only [document_to_blob_data, hlen, hps]

/-- Helper: inversion of a successful assembly — the bytes are the flattened
resolved pieces and their count passed the declared-length check. -/
theorem document_to_blob_data_ok_inv {db : Db} {doc : StorageDocumentT} {bytes : List Nat}
    (h : document_to_blob_data db doc = .ok (some bytes)) :
    ∃ L ps, doc.get "length" = some (.int L) ∧
      doc.get "pieces" = some (.pinnedRelationList ps) ∧
      bytes = (resolvePieces db ps).flatten ∧ bytes.length = i64ToUsize L := by
  unfold document_to_blob_data at h
  split at h
  case _ L hlen =>
    split at h
    case _ ps hps =>
      dsimp only at h
      split at h
      · exact absurd h (by simp)
      · split at h
        · exact absurd h (by simp)
        · split at h
          · exact absurd h (by simp)
          · next hlength =>
            have hb : (resolvePieces db ps).flatten = bytes := Option.some.inj (Except.ok.inj h)
            refine ⟨L, ps, hlen, hps, hb.symm, ?_⟩
            rw [← hb]
            exact not_not.mp hlength
    all_goals exact absurd h (by simp)
  all_goals exact absurd h (by simp)

/-! ## Claim theorems: blob assembler -/

/-- C4: for a stored blob document with at least one resolvable piece,
`get_blob` returns `MissingPieces` exactly when the resolved piece count is
strictly below the declared `pieces` list length; when the counts agree the
call proceeds to the byte-length check (returning either the bytes or
`IncorrectLength`). -/
theorem get_blob_missing_pieces_iff (db : Db) (id : String) (doc : StorageDocumentT) (L : Int)
    (ps : List String)
    (hdoc : get_document db id = .ok (some doc))
    (hs : doc.schema_id = blobSchemaId)
    (hlen : doc.get "length" = some (.int L))
    (hps : doc.get "pieces" = some (.pinnedRelationList ps))
    (hne : resolvePieces db ps ≠ []) :
    (get_blob db id = .error .missingPieces ↔ (resolvePieces db ps).length < ps.length) ∧
    ((resolvePieces db ps).length = ps.length →
      get_blob db id = .ok (some (resolvePieces db ps).flatten) ∨
      get_blob db id = .error .incorrectLength) := by
  rw [get_blob_eq hdoc hs, document_to_blob_data_eq db doc L ps hlen hps]
  have hle : (resolvePieces db ps).length ≤ ps.length := resolvePieces_length_le db ps
  rw [if_neg (by simp [List.isEmpty_iff, hne])]
  by_cases hq : (resolvePieces db ps).length = ps.length
  · rw [if_neg (fun hh => hh hq)]
    constructor
    · constructor
      · intro h
        exfalso
        split at h <;> simp at h
      · intro h
        exact absurd hq (Nat.ne_of_lt h)
    · intro _
      by_cases hl : (resolvePieces db ps).flatten.length ≠ i64ToUsize L
      · right
        rw [if_pos hl]
      · left
        rw [if_neg hl]
  · rw [if_pos hq]
    exact ⟨iff_of_true rfl (Nat.lt_of_le_of_ne hle hq), fun hh => absurd hh hq⟩

/-- Witness for C4: a blob declaring two pieces of which exactly one resolves
yields `MissingPieces`. -/
theorem get_blob_missing_pieces_iff_witness :
    get_blob
      ⟨[⟨"b", "bv", blobSchemaId, false⟩],
        [⟨"p1", "pd1", blobPieceSchemaId⟩],
        [⟨"bv", "b", "length"⟩, ⟨"bv", "b", "pieces"⟩, ⟨"p1", "po1", "data"⟩],
        [⟨"b", "pkb"⟩],
        [⟨"b", "length", .int 5⟩, ⟨"b", "pieces", .pinnedRelationList ["p1", "p2"]⟩,
          ⟨"po1", "data", .str [104, 105]⟩]⟩ "b" = .error .missingPieces :=
  ((get_blob_missing_pieces_iff
      ⟨[⟨"b", "bv", blobSchemaId, false⟩],
        [⟨"p1", "pd1", blobPieceSchemaId⟩],
        [⟨"bv", "b", "length"⟩, ⟨"bv", "b", "pieces"⟩, ⟨"p1", "po1", "data"⟩],
        [⟨"b", "pkb"⟩],
        [⟨"b", "length", .int 5⟩, ⟨"b", "pieces", .pinnedRelationList ["p1", "p2"]⟩,
          ⟨"po1", "data", .str [104, 105]⟩]⟩ "b"
      ⟨"b", "bv", blobSchemaId,
        some [("length", ⟨"b", .int 5⟩), ("pieces", ⟨"b", .pinnedRelationList ["p1", "p2"]⟩)],
        "pkb", false⟩ 5 ["p1", "p2"]
      rfl rfl rfl rfl (by decide)).1).mpr (by decide)

/-- C6: whenever `get_blob` or `get_blob_by_view_id` returns bytes, those bytes
are the concatenation, in anchored-query order, of the resolved pieces' `data`
payloads, and their byte length equals the blob's declared `length` (read
through the `i64 as usize` cast, hence equal to the declared integer on the
whole `i64` range of non-negative lengths); and when the concatenated length
differs from the declared one, the call returns `IncorrectLength` instead. -/
theorem get_blob_length_invariant (db : Db) (id vid : String) :
    (∀ bytes, get_blob db id = .ok (some bytes) →
      ∃ doc L ps, get_document db id = .ok (some doc) ∧
        doc.get "length" = some (.int L) ∧
        doc.get "pieces" = some (.pinnedRelationList ps) ∧
        bytes = (resolvePieces db ps).flatten ∧
        bytes.length = i64ToUsize L ∧
        (0 ≤ L → L < 2 ^ 63 → (bytes.length : Int) = L)) ∧
    (∀ doc L ps, get_document db id = .ok (some doc) → doc.schema_id = blobSchemaId →
      doc.get "length" = some (.int L) →
      doc.get "pieces" = some (.pinnedRelationList ps) →
      resolvePieces db ps ≠ [] →
      (resolvePieces db ps).length = ps.length →
      (resolvePieces db ps).flatten.length ≠ i64ToUsize L →
      get_blob db id = .error .incorrectLength) ∧
    (∀ bytes, get_blob_by_view_id db vid = .ok (some bytes) →
      ∃ doc L ps, get_document_by_view_id db vid = .ok (some doc) ∧
        doc.get "length" = some (.int L) ∧
        doc.get "pieces" = some (.pinnedRelationList ps) ∧
        bytes = (resolvePieces db ps).flatten ∧
        bytes.length = i64ToUsize L ∧
        (0 ≤ L → L < 2 ^ 63 → (bytes.length : Int) = L)) ∧
    (∀ doc L ps, get_document_by_view_id db vid = .ok (some doc) →
      doc.schema_id = blobSchemaId →
      doc.get "length" = some (.int L) →
      doc.get "pieces" = some (.pinnedRelationList ps) →
      resolvePieces db ps ≠ [] →
      (resolvePieces db ps).length = ps.length →
      (resolvePieces db ps).flatten.length ≠ i64ToUsize L →
      get_blob_by_view_id db vid = .error .incorrectLength) := by
  have hcast : ∀ (L : Int) (n : Nat), n = i64ToUsize L → 0 ≤ L → L < 2 ^ 63 → (n : Int) = L := by
    intro L n hn h0 h63
    rw [hn]
    unfold i64ToUsize
    rw [Int.emod_eq_of_lt h0 (lt_trans h63 (by norm_num))]
    exact Int.toNat_of_nonneg h0
  refine ⟨?_, ?_, ?_, ?_⟩
  · intro bytes h
    obtain ⟨doc, hdoc, hs, hblob⟩ := get_blob_ok_inv h
    obtain ⟨L, ps, hlen, hps, hbytes, hlength⟩ := document_to_blob_data_ok_inv hblob
    exact ⟨doc, L, ps, hdoc, hlen, hps, hbytes, hlength, hcast L bytes.length hlength⟩
  · intro doc L ps hdoc hs hlen hps hne hcount hbad
    rw [get_blob_eq hdoc hs, document_to_blob_data_eq db doc L ps hlen hps]
    rw [if_neg (by simp [List.isEmpty_iff, hne])]
    rw [if_neg (fun hh => hh hcount)]
    rw [if_pos hbad]
  · intro bytes h
    obtain ⟨doc, hdoc, hs, hblob⟩ := get_blob_by_view_id_ok_inv h
    obtain ⟨L, ps, hlen, hps, hbytes, hlength⟩ := document_to_blob_data_ok_inv hblob
    exact ⟨doc, L, ps, hdoc, hlen, hps, hbytes, hlength, hcast L bytes.length hlength⟩
  · intro doc L ps hdoc hs hlen hps hne hcount hbad
    rw [get_blob_by_view_id_eq hdoc hs, document_to_blob_data_eq db doc L ps hlen hps]
    rw [if_neg (by simp [List.isEmpty_iff, hne])]
    rw [if_neg (fun hh => hh hcount)]
    rw [if_pos hbad]

/-- Witness for C6: a fully resolvable two-piece blob of declared length 11
returns exactly the 11 concatenated bytes, and the same blob with declared
length 5 returns `IncorrectLength`. -/
theorem get_blob_length_invariant_witness :
    (∃ doc L ps, get_document
        ⟨[⟨"b", "bv", blobSchemaId, false⟩],
          [⟨"p1", "pd1", blobPieceSchemaId⟩, ⟨"p2", "pd2", blobPieceSchemaId⟩],
          [⟨"bv", "b", "length"⟩, ⟨"bv", "b", "pieces"⟩,
            ⟨"p1", "po1", "data"⟩, ⟨"p2", "po2", "data"⟩],
          [⟨"b", "pkb"⟩],
          [⟨"b", "length", .int 11⟩, ⟨"b", "pieces", .pinnedRelationList ["p1", "p2"]⟩,
            ⟨"po1", "data", .str [104, 101, 108, 108, 111]⟩,
            ⟨"po2", "data", .str [32, 119, 111, 114, 108, 100]⟩]⟩ "b" = .ok (some doc) ∧
      doc.get "length" = some (.int L) ∧
      doc.get "pieces" = some (.pinnedRelationList ps) ∧
      [104, 101, 108, 108, 111, 32, 119, 111, 114, 108, 100] =
        (resolvePieces
          ⟨[⟨"b", "bv", blobSchemaId, false⟩],
            [⟨"p1", "pd1", blobPieceSchemaId⟩, ⟨"p2", "pd2", blobPieceSchemaId⟩],
            [⟨"bv", "b", "length"⟩, ⟨"bv", "b", "pieces"⟩,
              ⟨"p1", "po1", "data"⟩, ⟨"p2", "po2", "data"⟩],
            [⟨"b", "pkb"⟩],
            [⟨"b", "length", .int 11⟩, ⟨"b", "pieces", .pinnedRelationList ["p1", "p2"]⟩,
              ⟨"po1", "data", .str [104, 101, 108, 108, 111]⟩,
              ⟨"po2", "data", .str [32, 119, 111, 114, 108, 100]⟩]⟩ ps).flatten ∧
      ([104, 101, 108, 108, 111, 32, 119, 111, 114, 108, 100] : List Nat).length =
        i64ToUsize L ∧
      (0 ≤ L → L < 2 ^ 63 →
        (([104, 101, 108, 108, 111, 32, 119, 111, 114, 108, 100] : List Nat).length : Int) = L)) ∧
    get_blob
      ⟨[⟨"b", "bv", blobSchemaId, false⟩],
        [⟨"p1", "pd1", blobPieceSchemaId⟩, ⟨"p2", "pd2", blobPieceSchemaId⟩],
        [⟨"bv", "b", "length"⟩, ⟨"bv", "b", "pieces"⟩,
          ⟨"p1", "po1", "data"⟩, ⟨"p2", "po2", "data"⟩],
        [⟨"b", "pkb"⟩],
        [⟨"b", "length", .int 5⟩, ⟨"b", "pieces", .pinnedRelationList ["p1", "p2"]⟩,
          ⟨"po1", "data", .str [104, 101, 108, 108, 111]⟩,
          ⟨"po2", "data", .str [32, 119, 111, 114, 108, 100]⟩]⟩ "b" =
      .error .incorrectLength :=
  ⟨(get_blob_length_invariant
      ⟨[⟨"b", "bv", blobSchemaId, false⟩],
        [⟨"p1", "pd1", blobPieceSchemaId⟩, ⟨"p2", "pd2", blobPieceSchemaId⟩],
        [⟨"bv", "b", "length"⟩, ⟨"bv", "b", "pieces"⟩,
          ⟨"p1", "po1", "data"⟩, ⟨"p2", "po2", "data"⟩],
        [⟨"b", "pkb"⟩],
        [⟨"b", "length", .int 11⟩, ⟨"b", "pieces", .pinnedRelationList ["p1", "p2"]⟩,
          ⟨"po1", "data", .str [104, 101, 108, 108, 111]⟩,
          ⟨"po2", "data", .str [32, 119, 111, 114, 108, 100]⟩]⟩ "b" "bv").1
    [104, 101, 108, 108, 111, 32, 119, 111, 114, 108, 100] rfl,
  (get_blob_length_invariant
      ⟨[⟨"b", "bv", blobSchemaId, false⟩],
        [⟨"p1", "pd1", blobPieceSchemaId⟩, ⟨"p2", "pd2", blobPieceSchemaId⟩],
        [⟨"bv", "b", "length"⟩, ⟨"bv", "b", "pieces"⟩,
          ⟨"p1", "po1", "data"⟩, ⟨"p2", "po2", "data"⟩],
        [⟨"b", "pkb"⟩],
        [⟨"b", "length", .int 5⟩, ⟨"b", "pieces", .pinnedRelationList ["p1", "p2"]⟩,
          ⟨"po1", "data", .str [104, 101, 108, 108, 111]⟩,
          ⟨"po2", "data", .str [32, 119, 111, 114, 108, 100]⟩]⟩ "b" "bv").2.1
    ⟨"b", "bv", blobSchemaId,
      some [("length", ⟨"b", .int 5⟩), ("pieces", ⟨"b", .pinnedRelationList ["p1", "p2"]⟩)],
      "pkb", false⟩ 5 ["p1", "p2"]
    rfl rfl rfl rfl (by decide) (by decide) (by decide)⟩

/-- C10: a blob document whose declared `pieces` relation list is empty never
yields bytes — the anchored query resolves zero pieces and the empty-result
check runs before the count and length checks, so both `get_blob` and
`get_blob_by_view_id` return `NoBlobPiecesFound`, for every declared `length`
value including 0. -/
theorem get_blob_empty_pieces_list (db : Db) (id vid : String) :
    (∀ doc L, get_document db id = .ok (some doc) → doc.schema_id = blobSchemaId →
      doc.get "length" = some (.int L) →
      doc.get "pieces" = some (.pinnedRelationList []) →
      get_blob db id = .error .noBlobPiecesFound) ∧
    (∀ doc L, get_document_by_view_id db vid = .ok (some doc) →
      doc.schema_id = blobSchemaId →
      doc.get "length" = some (.int L) →
      doc.get "pieces" = some (.pinnedRelationList []) →
      get_blob_by_view_id db vid = .error .noBlobPiecesFound) := by
  constructor
  · intro doc L hdoc hs hlen hps
    rw [get_blob_eq hdoc hs, document_to_blob_data_eq db doc L [] hlen hps]
    rw [if_pos (by simp [resolvePieces])]
  · intro doc L hdoc hs hlen hps
    rw [get_blob_by_view_id_eq hdoc hs, document_to_blob_data_eq db doc L [] hlen hps]
    rw [if_pos (by simp [resolvePieces])]

/-- Witness for C10: a stored zero-piece, zero-length blob yields
`NoBlobPiecesFound` through both getters. -/
theorem get_blob_empty_pieces_list_witness :
    get_blob
      ⟨[⟨"b", "bv", blobSchemaId, false⟩], [⟨"bv", "b", blobSchemaId⟩],
        [⟨"bv", "b", "length"⟩, ⟨"bv", "b", "pieces"⟩], [⟨"b", "pkb"⟩],
        [⟨"b", "length", .int 0⟩, ⟨"b", "pieces", .pinnedRelationList []⟩]⟩ "b" =
      .error .noBlobPiecesFound ∧
    get_blob_by_view_id
      ⟨[⟨"b", "bv", blobSchemaId, false⟩], [⟨"bv", "b", blobSchemaId⟩],
        [⟨"bv", "b", "length"⟩, ⟨"bv", "b", "pieces"⟩], [⟨"b", "pkb"⟩],
        [⟨"b", "length", .int 0⟩, ⟨"b", "pieces", .pinnedRelationList []⟩]⟩ "bv" =
      .error .noBlobPiecesFound :=
  ⟨(get_blob_empty_pieces_list
      ⟨[⟨"b", "bv", blobSchemaId, false⟩], [⟨"bv", "b", blobSchemaId⟩],
        [⟨"bv", "b", "length"⟩, ⟨"bv", "b", "pieces"⟩], [⟨"b", "pkb"⟩],
        [⟨"b", "length", .int 0⟩, ⟨"b", "pieces", .pinnedRelationList []⟩]⟩ "b" "bv").1
    ⟨"b", "bv", blobSchemaId,
      some [("length", ⟨"b", .int 0⟩), ("pieces", ⟨"b", .pinnedRelationList []⟩)],
      "pkb", false⟩ 0 rfl rfl rfl rfl,
  (get_blob_empty_pieces_list
      ⟨[⟨"b", "bv", blobSchemaId, false⟩], [⟨"bv", "b", blobSchemaId⟩],
        [⟨"bv", "b", "length"⟩, ⟨"bv", "b", "pieces"⟩], [⟨"b", "pkb"⟩],
        [⟨"b", "length", .int 0⟩, ⟨"b", "pieces", .pinnedRelationList []⟩]⟩ "b" "bv").2
    ⟨"b", "bv", blobSchemaId,
      some [("length", ⟨"b", .int 0⟩), ("pieces", ⟨"b", .pinnedRelationList []⟩)],
      "pkb", false⟩ 0 rfl rfl rfl rfl⟩

end Aquadoggo
